import Mathlib

/-!
Verification of the MCP client subsystem (src/mcp_client.py) against its
specification. The Python code is shallowly embedded: JSON documents become an
inductive type, the network becomes an explicit oracle from requests to
outcomes, and every operation returns its result together with the list of
HTTP requests it issued, so that "number of network calls" is the length of
that trace. Exceptions raised by the HTTP library are modelled as the
`HttpOutcome.exn` constructor; the bare `except` blocks of the source become
the corresponding match arms.
-/

/-- JSON values as handled by the Python code: dict, list, str, int, bool and
None. Dicts are association lists keyed by strings. -/
inductive Json where
  | null
  | bool (b : Bool)
  | num (n : Int)
  | str (s : String)
  | arr (items : List Json)
  | obj (fields : List (String × Json))

/-- Key lookup in a JSON object; on any non-object value the lookup is empty.
This models the Python pattern of testing membership with the in-operator on a
decoded dict and then indexing. -/
def Json.getKey : Json → String → Option Json
  | .obj fields, k => fields.lookup k
  | _, _ => none

/-- Membership test for a key, the Python in-operator on a dict. -/
def Json.hasKey (j : Json) (k : String) : Bool := (j.getKey k).isSome

/-- Python truthiness restricted to JSON-representable values: None, False,
zero, empty string, empty list and empty dict are falsy. -/
def Json.truthy : Json → Bool
  | .null => false
  | .bool b => b
  | .num n => n != 0
  | .str s => !s.isEmpty
  | .arr items => !items.isEmpty
  | .obj fields => !fields.isEmpty

/-- HTTP verb of an outbound request. -/
inductive HttpMethod where
  | get
  | post

/-- An outbound HTTP request as issued by the client: verb, full URL, JSON
body for POSTs, whether the Accept header asks for text/event-stream
(the streaming mode), and the timeout in seconds passed to the HTTP library. -/
structure HttpRequest where
  method : HttpMethod
  url : String
  jsonBody : Option Json
  acceptSSE : Bool
  timeoutSecs : Nat

/-- Outcome of calling response.json() on a response body: a decoded document,
or a decode exception carrying its message. -/
inductive BodyJson where
  | ok (j : Json)
  | fail (msg : String)

/-- One line of a streamed (server-sent events) response body after UTF-8
decoding and splitting on newlines, classified the way the parsing loop in
the source treats it: a data line whose payload is blank, a data line whose
payload fails JSON decoding, a data line with a decoded JSON document, or any
line not starting with the data marker. -/
inductive SSELine where
  | dataBlank
  | dataMalformed
  | dataOk (j : Json)
  | other

/-- An HTTP response: status code, the content-type header (empty string when
absent), the body as seen by response.json(), the body as seen by the
streaming reader (response.aread() may itself raise, hence Except), and the
body text used in error messages. -/
structure HttpResponse where
  statusCode : Nat
  contentType : String
  bodyJson : BodyJson
  sseBody : Except String (List SSELine)
  text : String

/-- Outcome of issuing an HTTP request: a response, or a transport exception
(timeout, connection refused, DNS failure) carrying its message. -/
inductive HttpOutcome where
  | resp (r : HttpResponse)
  | exn (msg : String)

/-- Whether the first character list leads the second one. -/
def chars_lead : List Char → List Char → Bool
  | [], _ => true
  | _ :: _, [] => false
  | p :: ps, c :: cs => p == c && chars_lead ps cs

/-- Whether the first character list occurs inside the second one. -/
def chars_contain (pat : List Char) : List Char → Bool
  | [] => chars_lead pat []
  | c :: rest => chars_lead pat (c :: rest) || chars_contain pat rest

/-- Substring test, the Python in-operator on strings, used by the source to
detect text/event-stream inside the content-type header. -/
def containsSub (s pat : String) : Bool := chars_contain pat.data s.data

/-- Python expression server_config.get("enabled", False) under truthiness, as
tested both by MCPClient and by the manager when deciding which clients to
build. -/
def config_enabled (server_config : Json) : Bool :=
  match server_config.getKey "enabled" with
  | some v => v.truthy
  | none => false

/-- The per-server client. The constructor of the source reads the url (with
default http://localhost:3000) and the enabled flag from the server config
dict; the enabled flag is stored here already as its truth value since every
use in the source tests it with the if-statement. -/
structure MCPClient where
  name : String
  url : String
  enabled : Bool

/-- MCPClient.__init__ from the source, reading the url and enabled fields of
the configuration dict. -/
def MCPClient.ofConfig (name : String) (server_config : Json) : MCPClient :=
  { name := name
  , url := match server_config.getKey "url" with
           | some (.str s) => s
           | _ => "http://localhost:3000"
  , enabled := config_enabled server_config }

/-- The GET request issued against the health endpoint by is_available. -/
def health_request (c : MCPClient) : HttpRequest :=
  { method := .get, url := c.url ++ "/health", jsonBody := none
  , acceptSSE := false, timeoutSecs := 5 }

/-- The GET request issued against the root address by the fallback branch of
is_available. -/
def root_request (c : MCPClient) : HttpRequest :=
  { method := .get, url := c.url ++ "/", jsonBody := none
  , acceptSSE := false, timeoutSecs := 5 }

/-- MCPClient.is_available: disabled clients answer false with no network
activity; otherwise the health endpoint is queried and its status compared to
200; only when that request raises does the code fall back to a GET on the
root address, returning true when that GET does not raise, regardless of its
status. -/
def MCPClient.is_available (c : MCPClient) (net : HttpRequest → HttpOutcome) :
    Bool × List HttpRequest :=
  if !c.enabled then (false, [])
  else
    match net (health_request c) with
    | .resp r => (r.statusCode == 200, [health_request c])
    | .exn _ =>
      match net (root_request c) with
      | .resp _ => (true, [health_request c, root_request c])
      | .exn _ => (false, [health_request c, root_request c])

/-- Python expression arguments or dict(): None and the empty dict both become
the empty dict; any truthy value passes through. -/
def args_or_empty : Option Json → Json
  | none => .obj []
  | some a => if a.truthy then a else .obj []

/-- The JSON-RPC envelope built by call_tool and call_tool_fallback. -/
def tools_call_request (tool_name : String) (arguments : Option Json) : Json :=
  .obj [ ("jsonrpc", .str "2.0")
       , ("id", .num 1)
       , ("method", .str "tools/call")
       , ("params", .obj [ ("name", .str tool_name)
                         , ("arguments", args_or_empty arguments) ]) ]

/-- The POST request issued by call_tool (streaming accepted) and by
call_tool_fallback (plain JSON only). -/
def call_tool_http_request (c : MCPClient) (tool_name : String)
    (arguments : Option Json) (sse : Bool) : HttpRequest :=
  { method := .post, url := c.url ++ "/"
  , jsonBody := some (tools_call_request tool_name arguments)
  , acceptSSE := sse, timeoutSecs := 30 }

/-- The structured connection-error value produced by the outer except blocks
of call_tool and call_tool_fallback. -/
def connection_error (c : MCPClient) (e : String) : Json :=
  .obj [("error", .str ("Ошибка подключения к " ++ c.name ++ ": " ++ e))]

/-- The structured error value produced for a non-success, non-406 HTTP
status. -/
def http_status_error (r : HttpResponse) : Json :=
  .obj [("error", .str ("HTTP " ++ toString r.statusCode ++ ": " ++ r.text))]

/-- Decoding of a plain JSON-RPC body: the value under key "result" when
present, else a wrapped error when key "error" is present, else the body
itself. This is the if-elif-else pattern repeated verbatim in call_tool,
call_tool_fallback and the SSE processor of the source. -/
def unwrap_envelope (result : Json) : Json :=
  match result.getKey "result" with
  | some v => v
  | none =>
    match result.getKey "error" with
    | some e => .obj [("error", e)]
    | none => result

/-- The events list accumulated by the parsing loop of the SSE processor:
data lines with a decoded document are kept in order; blank data lines,
undecodable data lines and non-data lines are skipped. -/
def collectEvents : List SSELine → List Json
  | [] => []
  | .dataOk j :: rest => j :: collectEvents rest
  | .dataBlank :: rest => collectEvents rest
  | .dataMalformed :: rest => collectEvents rest
  | .other :: rest => collectEvents rest

/-- The private SSE processor of the source. A failed body read becomes the
SSE processing error; an empty events list becomes the no-data error;
otherwise the last accumulated event is inspected: its "result" value is
returned when present, else its "error" value wrapped, else an object
carrying the whole events list. -/
def process_sse_response (body : Except String (List SSELine)) : Json :=
  match body with
  | .error e => .obj [("error", .str ("Ошибка обработки SSE: " ++ e))]
  | .ok lines =>
    match (collectEvents lines).getLast? with
    | none => .obj [("error", .str "Нет данных в SSE потоке")]
    | some lastEvent =>
      match lastEvent.getKey "result" with
      | some v => v
      | none =>
        match lastEvent.getKey "error" with
        | some e => .obj [("error", e)]
        | none => .obj [("events", .arr (collectEvents lines))]

/-- MCPClient.call_tool_fallback: one plain (non-streaming) POST of the same
JSON-RPC envelope; transport and decode exceptions become connection errors,
non-200 statuses become HTTP status errors, a 200 body is unwrapped. -/
def MCPClient.call_tool_fallback (c : MCPClient) (net : HttpRequest → HttpOutcome)
    (tool_name : String) (arguments : Option Json) :
    Option Json × List HttpRequest :=
  if !c.enabled then (none, [])
  else
    let req := call_tool_http_request c tool_name arguments false
    match net req with
    | .exn e => (some (connection_error c e), [req])
    | .resp r =>
      if r.statusCode == 200 then
        match r.bodyJson with
        | .fail msg => (some (connection_error c msg), [req])
        | .ok result => (some (unwrap_envelope result), [req])
      else
        (some (http_status_error r), [req])

/-- MCPClient.call_tool: disabled clients return None with no network
activity; otherwise one streaming-accepting POST is issued. A 200 response is
decoded through the SSE processor when the content-type header mentions
text/event-stream, else through response.json(); a 406 response triggers the
non-streaming fallback, whose result is returned; any other status becomes an
HTTP status error; transport and decode exceptions become connection
errors. -/
def MCPClient.call_tool (c : MCPClient) (net : HttpRequest → HttpOutcome)
    (tool_name : String) (arguments : Option Json) :
    Option Json × List HttpRequest :=
  if !c.enabled then (none, [])
  else
    let req := call_tool_http_request c tool_name arguments true
    match net req with
    | .exn e => (some (connection_error c e), [req])
    | .resp r =>
      if r.statusCode == 200 then
        if containsSub r.contentType "text/event-stream" then
          (some (process_sse_response r.sseBody), [req])
        else
          match r.bodyJson with
          | .fail msg => (some (connection_error c msg), [req])
          | .ok result => (some (unwrap_envelope result), [req])
      else if r.statusCode == 406 then
        match c.call_tool_fallback net tool_name arguments with
        | (res, reqs) => (res, req :: reqs)
      else
        (some (http_status_error r), [req])

/-- The JSON-RPC envelope built by list_tools and list_tools_fallback. -/
def tools_list_request : Json :=
  .obj [ ("jsonrpc", .str "2.0")
       , ("id", .num 1)
       , ("method", .str "tools/list") ]

/-- The POST request issued by list_tools (streaming accepted) and by
list_tools_fallback (plain JSON only). -/
def list_tools_http_request (c : MCPClient) (sse : Bool) : HttpRequest :=
  { method := .post, url := c.url ++ "/"
  , jsonBody := some tools_list_request
  , acceptSSE := sse, timeoutSecs := 10 }

/-- Extraction of the tool list from a plain JSON-RPC body by list_tools and
list_tools_fallback: the value under result.tools when both keys are present,
else the empty list. -/
def tools_of_plain_body (result : Json) : Json :=
  match result.getKey "result" with
  | some res =>
    match res.getKey "tools" with
    | some t => t
    | none => .arr []
  | none => .arr []

/-- MCPClient.list_tools_fallback: one plain POST of the tools/list envelope.
Every failure path of the source — transport exception, decode exception,
non-200 status, missing keys — returns the empty list. -/
def MCPClient.list_tools_fallback (c : MCPClient)
    (net : HttpRequest → HttpOutcome) : Option Json × List HttpRequest :=
  if !c.enabled then (none, [])
  else
    let req := list_tools_http_request c false
    match net req with
    | .exn _ => (some (.arr []), [req])
    | .resp r =>
      if r.statusCode == 200 then
        match r.bodyJson with
        | .fail _ => (some (.arr []), [req])
        | .ok result => (some (tools_of_plain_body result), [req])
      else
        (some (.arr []), [req])

/-- MCPClient.list_tools: disabled clients return None with no network
activity; otherwise one streaming-accepting POST of the tools/list envelope
is issued. A 200 streamed response goes through the SSE processor and the
value under its "tools" key is returned (empty list when absent); a 200 plain
response is decoded through result.tools; a 406 status triggers the
non-streaming fallback; every other failure path — transport exception,
decode exception, other statuses — returns the empty list. -/
def MCPClient.list_tools (c : MCPClient) (net : HttpRequest → HttpOutcome) :
    Option Json × List HttpRequest :=
  if !c.enabled then (none, [])
  else
    let req := list_tools_http_request c true
    match net req with
    | .exn _ => (some (.arr []), [req])
    | .resp r =>
      if r.statusCode == 200 then
        if containsSub r.contentType "text/event-stream" then
          match (process_sse_response r.sseBody).getKey "tools" with
          | some t => (some t, [req])
          | none => (some (.arr []), [req])
        else
          match r.bodyJson with
          | .fail _ => (some (.arr []), [req])
          | .ok result => (some (tools_of_plain_body result), [req])
      else if r.statusCode == 406 then
        match c.list_tools_fallback net with
        | (res, reqs) => (res, req :: reqs)
      else
        (some (.arr []), [req])

/-- The JSON-RPC handshake envelope built by get_server_info and its
fallback. -/
def server_info_request : Json :=
  .obj [ ("jsonrpc", .str "2.0")
       , ("id", .num 1)
       , ("method", .str "initialize")
       , ("params", .obj [ ("protocolVersion", .str "2024-11-05")
                         , ("capabilities", .obj [])
                         , ("clientInfo", .obj [ ("name", .str "ai-chat-client")
                                               , ("version", .str "1.0.0") ]) ]) ]

/-- The POST request issued by get_server_info (streaming accepted) and by
its fallback (plain JSON only). -/
def server_info_http_request (c : MCPClient) (sse : Bool) : HttpRequest :=
  { method := .post, url := c.url ++ "/"
  , jsonBody := some server_info_request
  , acceptSSE := sse, timeoutSecs := 10 }

/-- MCPClient.get_server_info_fallback: one plain POST of the handshake
envelope; every failure path returns the empty dict, a 200 body yields the
value under its "result" key. -/
def MCPClient.get_server_info_fallback (c : MCPClient)
    (net : HttpRequest → HttpOutcome) : Option Json × List HttpRequest :=
  if !c.enabled then (none, [])
  else
    let req := server_info_http_request c false
    match net req with
    | .exn _ => (some (.obj []), [req])
    | .resp r =>
      if r.statusCode == 200 then
        match r.bodyJson with
        | .fail _ => (some (.obj []), [req])
        | .ok result =>
          match result.getKey "result" with
          | some v => (some v, [req])
          | none => (some (.obj []), [req])
      else
        (some (.obj []), [req])

/-- MCPClient.get_server_info: the streaming-accepting handshake POST, with
SSE decoding on a streamed 200, result extraction on a plain 200, the
non-streaming fallback on 406, and the empty dict on every failure path. -/
def MCPClient.get_server_info (c : MCPClient)
    (net : HttpRequest → HttpOutcome) : Option Json × List HttpRequest :=
  if !c.enabled then (none, [])
  else
    let req := server_info_http_request c true
    match net req with
    | .exn _ => (some (.obj []), [req])
    | .resp r =>
      if r.statusCode == 200 then
        if containsSub r.contentType "text/event-stream" then
          (some (process_sse_response r.sseBody), [req])
        else
          match r.bodyJson with
          | .fail _ => (some (.obj []), [req])
          | .ok result =>
            match result.getKey "result" with
            | some v => (some v, [req])
            | none => (some (.obj []), [req])
      else if r.statusCode == 406 then
        match c.get_server_info_fallback net with
        | (res, reqs) => (res, req :: reqs)
      else
        (some (.obj []), [req])

/-- The manager owning one client per enabled configured server. The clients
dict of the source is an association list here; the configuration dict
returned by config.get_mcp_config() is an association list of server name to
server config document. -/
structure MCPManager where
  clients : List (String × MCPClient)

/-- MCPManager._initialize_clients: one client is built per configured server
whose config has a truthy enabled flag; other entries are skipped. -/
def initialize_clients (mcp_config : List (String × Json)) :
    List (String × MCPClient) :=
  mcp_config.filterMap (fun p =>
    if config_enabled p.2 then some (p.1, MCPClient.ofConfig p.1 p.2)
    else none)

/-- MCPManager.__init__: the constructor immediately populates the clients
map from the configuration. -/
def MCPManager.ofConfig (mcp_config : List (String × Json)) : MCPManager :=
  { clients := initialize_clients mcp_config }

/-- MCPManager.call_tool: an unknown server name yields the structured
not-found error with no network activity; a known name delegates to the
client. -/
def MCPManager.call_tool (m : MCPManager) (net : HttpRequest → HttpOutcome)
    (server_name tool_name : String) (arguments : Option Json) :
    Option Json × List HttpRequest :=
  match m.clients.lookup server_name with
  | none =>
    (some (.obj [("error", .str ("MCP сервер " ++ server_name ++ " не найден"))]), [])
  | some client => client.call_tool net tool_name arguments

/-- MCPManager.list_server_tools: an unknown server name yields the empty
list with no network activity; a known name delegates to the client. -/
def MCPManager.list_server_tools (m : MCPManager)
    (net : HttpRequest → HttpOutcome) (server_name : String) :
    Option Json × List HttpRequest :=
  match m.clients.lookup server_name with
  | none => (some (.arr []), [])
  | some client => client.list_tools net

/-- MCPManager.get_server_info: an unknown server name yields the empty dict
with no network activity; a known name delegates to the client. -/
def MCPManager.get_server_info (m : MCPManager)
    (net : HttpRequest → HttpOutcome) (server_name : String) :
    Option Json × List HttpRequest :=
  match m.clients.lookup server_name with
  | none => (some (.obj []), [])
  | some client => client.get_server_info net

/-- The sequential loop of MCPManager.get_available_servers, probing each
client in turn and keeping the names that answer available. -/
def available_loop (net : HttpRequest → HttpOutcome) :
    List (String × MCPClient) → List String × List HttpRequest
  | [] => ([], [])
  | (n, c) :: rest =>
    let probe := c.is_available net
    let tail := available_loop net rest
    (if probe.1 then n :: tail.1 else tail.1, probe.2 ++ tail.2)

/-- MCPManager.get_available_servers. -/
def MCPManager.get_available_servers (m : MCPManager)
    (net : HttpRequest → HttpOutcome) : List String × List HttpRequest :=
  available_loop net m.clients

/-- The sequential loop of MCPManager.get_all_tools over the client names,
keeping only truthy (non-empty, non-None) tool lists. -/
def all_tools_loop (m : MCPManager) (net : HttpRequest → HttpOutcome) :
    List String → List (String × Json) × List HttpRequest
  | [] => ([], [])
  | n :: rest =>
    let fetched := m.list_server_tools net n
    let tail := all_tools_loop m net rest
    ( match fetched.1 with
      | some t => if t.truthy then (n, t) :: tail.1 else tail.1
      | none => tail.1
    , fetched.2 ++ tail.2 )

/-- MCPManager.get_all_tools. -/
def MCPManager.get_all_tools (m : MCPManager)
    (net : HttpRequest → HttpOutcome) :
    List (String × Json) × List HttpRequest :=
  all_tools_loop m net (m.clients.map Prod.fst)

/-- One public manager operation, for stating map-preservation across the
whole public surface. -/
inductive ManagerOp where
  | get_available_servers
  | call_tool (server_name tool_name : String) (arguments : Option Json)
  | list_server_tools (server_name : String)
  | get_server_info (server_name : String)
  | get_all_tools

/-- Result of one public manager operation. -/
inductive OpResult where
  | names (values : List String)
  | payload (value : Option Json)
  | catalog (values : List (String × Json))

/-- Runs one public manager operation as a state transformer on the manager.
The method bodies of the source contain no assignment to self.clients, so
the post-state manager is the unchanged receiver. -/
def MCPManager.run_op (m : MCPManager) (net : HttpRequest → HttpOutcome) :
    ManagerOp → OpResult × List HttpRequest × MCPManager
  | .get_available_servers =>
    let out := m.get_available_servers net
    (.names out.1, out.2, m)
  | .call_tool server_name tool_name arguments =>
    let out := m.call_tool net server_name tool_name arguments
    (.payload out.1, out.2, m)
  | .list_server_tools server_name =>
    let out := m.list_server_tools net server_name
    (.payload out.1, out.2, m)
  | .get_server_info server_name =>
    let out := m.get_server_info net server_name
    (.payload out.1, out.2, m)
  | .get_all_tools =>
    let out := m.get_all_tools net
    (.catalog out.1, out.2, m)

/-- Outcome of probing one server during a health check: an availability
answer, or an exception raised by the check. -/
inductive AvailOutcome where
  | ok (b : Bool)
  | err (msg : String)

/-- Per-server status of the health check, the four values named by the
specification. -/
inductive ServerHealth where
  | disabled
  | healthy
  | unavailable
  | error (msg : String)

/-- Whether a per-server status is the healthy one. -/
def is_healthy_status : ServerHealth → Bool
  | .healthy => true
  | _ => false

/-- The report returned by the health check: an overall status string, the
per-server statuses, and the recorded issues. -/
structure HealthReport where
  overall : String
  servers : List (String × ServerHealth)
  issues : List String

/-- Modelled from the spec: the health check belongs to the richer variant of
the client file that the repository describes but that is not present under
src/ (the MCPManager in src/mcp_client.py has no health check). Per-server
classification per section 4.4: a disabled descriptor is reported disabled, an
enabled one is healthy or unavailable according to its probe, and a probe
that raises is reported as an error. -/
def server_status (avail : String → AvailOutcome) (p : String × Bool) :
    String × ServerHealth :=
  if !p.2 then (p.1, .disabled)
  else
    match avail p.1 with
    | .ok true => (p.1, .healthy)
    | .ok false => (p.1, .unavailable)
    | .err m => (p.1, .error m)

/-- Modelled from the spec: an issue is recorded against a server exactly when
its check errored; disabled and unavailable servers record no issue, since the
specification requires zero enabled servers to yield an empty issue list. -/
def health_issues (statuses : List (String × ServerHealth)) : List String :=
  statuses.filterMap (fun p =>
    match p.2 with
    | .error m => some (p.1 ++ ": " ++ m)
    | _ => none)

/-- Modelled from the spec: healthCheck of section 4.4, absent from the src/
variant of the manager. The overall status is unhealthy when any issue was
recorded, no_servers when no server is configured or none is healthy and no
issue was recorded, and healthy otherwise. The inputs are the configured
servers with their enabled flags and the probe outcome per server. -/
def health_check (servers : List (String × Bool))
    (avail : String → AvailOutcome) : HealthReport :=
  let statuses := servers.map (server_status avail)
  let issues := health_issues statuses
  { overall :=
      if !issues.isEmpty then "unhealthy"
      else if servers.isEmpty || statuses.all (fun p => !is_healthy_status p.2)
      then "no_servers"
      else "healthy"
  , servers := statuses
  , issues := issues }

/-- A concrete enabled client used by witnesses. -/
def demoClient : MCPClient :=
  { name := "demo", url := "http://localhost:3000", enabled := true }

/-- A concrete disabled client used by witnesses. -/
def offClient : MCPClient :=
  { name := "off", url := "http://localhost:3000", enabled := false }

/-- A network on which every request raises a transport exception. -/
def netDown : HttpRequest → HttpOutcome := fun _ => .exn "ConnectError"

/-- A response with a plain JSON body and empty streamed body. -/
def plain_response (status : Nat) (ct : String) (body : BodyJson) :
    HttpResponse :=
  { statusCode := status, contentType := ct, bodyJson := body
  , sseBody := .ok [], text := "" }

/-- A concrete one-server configuration whose single server is enabled. -/
def demoConfig : List (String × Json) :=
  [("demo", .obj [ ("url", .str "http://localhost:3000")
                 , ("enabled", .bool true) ])]

/-- The manager built from the one-server configuration. -/
def demoManager : MCPManager := MCPManager.ofConfig demoConfig

/-- A network answering every request with a plain 200 body holding an empty
tool list under result.tools. -/
def netToolsOnce : HttpRequest → HttpOutcome := fun _ =>
  .resp (plain_response 200 "application/json"
    (.ok (.obj [("result", .obj [("tools", .arr [])])])))

/-- A network returning status 404 on the health endpoint of the demo client
and a successful response on every other address. -/
def netHealth404 : HttpRequest → HttpOutcome := fun req =>
  if req.url = "http://localhost:3000/health"
  then .resp (plain_response 404 "" (.fail "not json"))
  else .resp (plain_response 200 "" (.fail "not json"))

/-- A network answering 406 to every streaming-accepting request and a plain
200 result body to every non-streaming request. -/
def net406 : HttpRequest → HttpOutcome := fun req =>
  if req.acceptSSE
  then .resp (plain_response 406 "" (.fail "not json"))
  else .resp (plain_response 200 "application/json"
    (.ok (.obj [("result", .str "ok")])))

/-- A manager with no configured servers. -/
def emptyManager : MCPManager := { clients := [] }

/-- Whether an operation result is a structured error value, an object
carrying the key "error". -/
def is_structured_error : Option Json → Bool
  | some j => j.hasKey "error"
  | none => false

/-- A probe oracle that is never consulted by the witnesses using it. -/
def noProbe : String → AvailOutcome := fun _ => .err "unused"

/-- A streamed body of two decoded frames where only the first carries a
result key and the second carries neither result nor error. -/
def sseLateFrame : Except String (List SSELine) :=
  .ok [ .dataOk (.obj [("result", .obj [("tools", .arr [])])])
      , .dataOk (.obj [("status", .str "done")]) ]

/-- C4: for every client whose descriptor is disabled, is_available returns
false immediately and issues zero network requests. -/
theorem C4_disabled_unavailable (c : MCPClient)
    (net : HttpRequest → HttpOutcome) (h : c.enabled = false) :
    c.is_available net = (false, []) := by
  simp [MCPClient.is_available, h]

/-- Witness for C4 at the concrete disabled client over the failing
network. -/
theorem C4_disabled_unavailable_witness :
    offClient.enabled = false ∧ offClient.is_available netDown = (false, []) :=
  ⟨rfl, C4_disabled_unavailable offClient netDown rfl⟩

/-- C6: the manager answers an unknown server name with the structured
not-found error and an empty request trace, and delegates a known name to the
corresponding client. -/
theorem C6_call_tool_routing (m : MCPManager) (net : HttpRequest → HttpOutcome)
    (server_name tool_name : String) (arguments : Option Json) :
    (m.clients.lookup server_name = none →
      m.call_tool net server_name tool_name arguments =
        (some (.obj [("error",
          .str ("MCP сервер " ++ server_name ++ " не найден"))]), []))
  ∧ (∀ c, m.clients.lookup server_name = some c →
      m.call_tool net server_name tool_name arguments =
        c.call_tool net tool_name arguments) := by
  constructor
  · intro h
    simp [MCPManager.call_tool, h]
  · intro c h
    simp [MCPManager.call_tool, h]

/-- Witness for C6: the empty manager answers a call for an unconfigured
server with the structured not-found error and no network requests. -/
theorem C6_call_tool_routing_witness :
    emptyManager.call_tool netDown "ghost" "echo" none =
      (some (.obj [("error", .str "MCP сервер ghost не найден")]), []) :=
  (C6_call_tool_routing emptyManager netDown "ghost" "echo" none).1 rfl

/-- C2 counterexample: the claim says the decoded result is taken from the
last frame that carries a result or error key, earlier frames being
discarded; on this stream that frame is the first one and the predicted
result is the object under its result key. The code instead inspects only
the final frame: since that frame carries neither key, it returns an object
holding every accumulated frame, and the predicted result is nowhere in
sight — its key set does not even contain the tools key. -/
theorem C2_counterexample :
    process_sse_response sseLateFrame =
      .obj [("events", .arr
        [ .obj [("result", .obj [("tools", .arr [])])]
        , .obj [("status", .str "done")] ])]
  ∧ (process_sse_response sseLateFrame).getKey "tools" = none :=
  ⟨rfl, rfl⟩

/-- C2 (amended): the decoded result is taken from the final decodable frame
of the stream, whatever keys it carries: its result value when present, else
its error value wrapped, else an object carrying all accumulated frames; in
particular the two-frame stream whose second frame holds the empty tool list
under a result key decodes to the object with the empty tool list. -/
theorem C2_last_frame (lines : List SSELine) (lastEvent : Json)
    (h : (collectEvents lines).getLast? = some lastEvent) :
    (∀ v, lastEvent.getKey "result" = some v →
      process_sse_response (.ok lines) = v)
  ∧ (∀ e, lastEvent.getKey "result" = none →
      lastEvent.getKey "error" = some e →
      process_sse_response (.ok lines) = .obj [("error", e)])
  ∧ (lastEvent.getKey "result" = none → lastEvent.getKey "error" = none →
      process_sse_response (.ok lines) =
        .obj [("events", .arr (collectEvents lines))])
  ∧ process_sse_response
      (.ok [ .dataOk (.obj [("x", .num 1)])
           , .dataOk (.obj [("result", .obj [("tools", .arr [])])]) ]) =
      .obj [("tools", .arr [])] := by
  refine ⟨?_, ?_, ?_, rfl⟩
  · intro v hv
    simp [process_sse_response, h, hv]
  · intro e hr he
    simp [process_sse_response, h, hr, he]
  · intro hr he
    simp [process_sse_response, h, hr, he]

/-- Witness for C2 at a concrete two-frame stream whose second frame carries
the result key. -/
theorem C2_last_frame_witness :
    process_sse_response
      (.ok [ .dataOk (.obj [("first", .bool true)])
           , .dataOk (.obj [("result", .obj [("tools", .arr [])])]) ]) =
      .obj [("tools", .arr [])] :=
  (C2_last_frame
    [ .dataOk (.obj [("first", .bool true)])
    , .dataOk (.obj [("result", .obj [("tools", .arr [])])]) ]
    (.obj [("result", .obj [("tools", .arr [])])]) rfl).1
    (.obj [("tools", .arr [])]) rfl

/-- C5 counterexample: the health endpoint of the enabled demo client answers
status 404, a failing non-success status; the claim then requires the generic
root probe to be attempted and, since on this network the root address
answers without raising, the availability answer to be true. The code instead
returns false after the single health request and never issues the probe. -/
theorem C5_counterexample :
    demoClient.is_available netHealth404 =
      (false, [health_request demoClient])
  ∧ netHealth404 (root_request demoClient) =
      .resp (plain_response 200 "" (.fail "not json")) :=
  ⟨rfl, rfl⟩

/-- C5 (amended): for an enabled client the dedicated liveness check runs
first; the generic root probe runs only when the liveness request raises a
transport exception — a response with a non-success status yields false at
once with no probe; when the probe does run, the result is true exactly when
the probe request does not raise. -/
theorem C5_fallback_on_exception (c : MCPClient)
    (net : HttpRequest → HttpOutcome) (h : c.enabled = true) :
    (∀ r, net (health_request c) = .resp r →
      c.is_available net = (r.statusCode == 200, [health_request c]))
  ∧ (∀ e r, net (health_request c) = .exn e →
      net (root_request c) = .resp r →
      c.is_available net = (true, [health_request c, root_request c]))
  ∧ (∀ e e2, net (health_request c) = .exn e →
      net (root_request c) = .exn e2 →
      c.is_available net = (false, [health_request c, root_request c])) := by
  refine ⟨?_, ?_, ?_⟩
  · intro r hr
    simp [MCPClient.is_available, h, hr]
  · intro e r he hr
    simp [MCPClient.is_available, h, he, hr]
  · intro e e2 he hr
    simp [MCPClient.is_available, h, he, hr]

/-- Witness for C5 at the enabled demo client over the network whose health
endpoint answers 404: the first branch of the theorem applies and evaluates
to the immediate false answer after one request. -/
theorem C5_fallback_on_exception_witness :
    demoClient.is_available netHealth404 =
      (false, [health_request demoClient]) := by
  have step := (C5_fallback_on_exception demoClient netHealth404 rfl).1
    (plain_response 404 "" (.fail "not json")) rfl
  simpa using step

/-- C3: when the streaming tool-call request is answered with status 406, the
client issues exactly one further request — the same JSON-RPC body to the
same address without requesting streaming — and call_tool returns exactly
the fallback result, with the full trace being the streaming request
followed by that single fallback request. -/
theorem C3_streaming_fallback (c : MCPClient) (net : HttpRequest → HttpOutcome)
    (tool_name : String) (arguments : Option Json) (r : HttpResponse)
    (h : c.enabled = true)
    (hr : net (call_tool_http_request c tool_name arguments true) = .resp r)
    (h406 : r.statusCode = 406) :
    c.call_tool net tool_name arguments =
      ((c.call_tool_fallback net tool_name arguments).1,
        call_tool_http_request c tool_name arguments true ::
          (c.call_tool_fallback net tool_name arguments).2)
  ∧ (c.call_tool_fallback net tool_name arguments).2 =
      [call_tool_http_request c tool_name arguments false]
  ∧ (call_tool_http_request c tool_name arguments false).acceptSSE = false
  ∧ (call_tool_http_request c tool_name arguments false).jsonBody =
      (call_tool_http_request c tool_name arguments true).jsonBody
  ∧ (call_tool_http_request c tool_name arguments false).url =
      (call_tool_http_request c tool_name arguments true).url := by
  refine ⟨?_, ?_, rfl, rfl, rfl⟩
  · rcases hp : c.call_tool_fallback net tool_name arguments with ⟨res, reqs⟩
    simp [MCPClient.call_tool, h, hr, h406, hp]
  · cases hn : net (call_tool_http_request c tool_name arguments false) with
    | exn e =>
      simp [MCPClient.call_tool_fallback, h, hn]
    | resp r2 =>
      cases hb : r2.bodyJson with
      | ok j =>
        by_cases h2 : r2.statusCode = 200 <;>
          simp [MCPClient.call_tool_fallback, h, hn, hb, h2]
      | fail msg =>
        by_cases h2 : r2.statusCode = 200 <;>
          simp [MCPClient.call_tool_fallback, h, hn, hb, h2]

/-- Witness for C3 at the enabled demo client over the network rejecting
streaming with 406: the returned value is the unwrapped fallback result and
the trace is the streaming request followed by the single non-streaming
one. -/
theorem C3_streaming_fallback_witness :
    demoClient.call_tool net406 "echo" none =
      (some (.str "ok"),
        [ call_tool_http_request demoClient "echo" none true
        , call_tool_http_request demoClient "echo" none false ]) := by
  have step := C3_streaming_fallback demoClient net406 "echo" none
    (plain_response 406 "" (.fail "not json")) rfl rfl rfl
  rw [step.1, step.2.1]
  rfl

/-- Helper: the request trace of list_tools for an enabled client always
starts with the streaming tools-list request; in particular it is never
empty. -/
theorem list_tools_trace_cons (c : MCPClient) (net : HttpRequest → HttpOutcome)
    (h : c.enabled = true) :
    ∃ rest, (c.list_tools net).2 = list_tools_http_request c true :: rest := by
  cases hn : net (list_tools_http_request c true) with
  | exn e =>
    exact ⟨[], by simp [MCPClient.list_tools, h, hn]⟩
  | resp r =>
    by_cases h200 : r.statusCode = 200
    · by_cases hct : containsSub r.contentType "text/event-stream" = true
      · cases ht : (process_sse_response r.sseBody).getKey "tools" with
        | none =>
          exact ⟨[], by simp [MCPClient.list_tools, h, hn, h200, hct, ht]⟩
        | some t =>
          exact ⟨[], by simp [MCPClient.list_tools, h, hn, h200, hct, ht]⟩
      · cases hb : r.bodyJson with
        | ok j =>
          exact ⟨[], by simp [MCPClient.list_tools, h, hn, h200, hct, hb]⟩
        | fail msg =>
          exact ⟨[], by simp [MCPClient.list_tools, h, hn, h200, hct, hb]⟩
    · by_cases h406 : r.statusCode = 406
      · refine ⟨(c.list_tools_fallback net).2, ?_⟩
        rcases hp : c.list_tools_fallback net with ⟨res, reqs⟩
        simp [MCPClient.list_tools, h, hn, h200, h406, hp]
      · exact ⟨[], by simp [MCPClient.list_tools, h, hn, h200, h406]⟩

/-- C7 counterexample: the src variant keeps no cache. On a network that
answers every tools request successfully, each of two list_server_tools calls
for the same configured server issues its own network request, so two calls
within any freshness window issue two network calls where the claim requires
exactly one. -/
theorem C7_counterexample :
    (demoManager.list_server_tools netToolsOnce "demo").2 =
      [list_tools_http_request demoClient true]
  ∧ ((demoManager.list_server_tools netToolsOnce "demo").2 ++
      (demoManager.list_server_tools netToolsOnce "demo").2).length = 2 :=
  ⟨rfl, rfl⟩

/-- C7 (amended): there is no cache: every list_server_tools call for a
configured enabled server issues at least one network request of its own, so
the combined trace of two calls is never the single request the claim
demands. -/
theorem C7_no_cache (m : MCPManager) (net : HttpRequest → HttpOutcome)
    (server_name : String) (c : MCPClient)
    (h1 : m.clients.lookup server_name = some c) (h2 : c.enabled = true) :
    1 ≤ (m.list_server_tools net server_name).2.length
  ∧ ((m.list_server_tools net server_name).2 ++
      (m.list_server_tools net server_name).2).length ≠ 1 := by
  have htr : 1 ≤ (m.list_server_tools net server_name).2.length := by
    obtain ⟨rest, hrest⟩ := list_tools_trace_cons c net h2
    simp [MCPManager.list_server_tools, h1, hrest]
  refine ⟨htr, ?_⟩
  rw [List.length_append]
  omega

/-- Witness for C7 at the demo manager over the network answering tools
requests successfully. -/
theorem C7_no_cache_witness :
    1 ≤ (demoManager.list_server_tools netToolsOnce "demo").2.length
  ∧ ((demoManager.list_server_tools netToolsOnce "demo").2 ++
      (demoManager.list_server_tools netToolsOnce "demo").2).length ≠ 1 :=
  C7_no_cache demoManager netToolsOnce "demo" demoClient rfl rfl

/-- Helper: the client names produced by initialization are exactly the
configured names whose config is enabled, in configuration order. -/
theorem initialize_clients_names (l : List (String × Json)) :
    (initialize_clients l).map Prod.fst =
      (l.filter (fun p => config_enabled p.2)).map Prod.fst := by
  induction l with
  | nil => rfl
  | cons p rest ih =>
    by_cases hp : config_enabled p.2 <;>
      simp [initialize_clients, List.filterMap_cons, List.filter_cons, hp] <;>
      simpa [initialize_clients] using ih

/-- Helper: the client names form a sublist of the configured names. -/
theorem initialize_clients_names_sublist (l : List (String × Json)) :
    ((initialize_clients l).map Prod.fst).Sublist (l.map Prod.fst) := by
  rw [initialize_clients_names]
  exact (List.filter_sublist l).map Prod.fst

/-- C9 counterexample: initialization is not lazy. Constructing the manager
from the one-server configuration alone — no operation invoked, no first use
— already yields the fully built one-entry client map, so there is no
deferred first-use build whose concurrent triggering the claim describes. -/
theorem C9_counterexample :
    (MCPManager.ofConfig demoConfig).clients = [("demo", demoClient)]
  ∧ (MCPManager.ofConfig demoConfig).clients.length = 1 :=
  ⟨rfl, rfl⟩

/-- C9 (amended): initialization is one-shot and eager: the constructor
builds the client map once, one client per configured server with a truthy
enabled flag; for a configuration with distinct names the map has no
duplicate names, and no enabled configured server is missing from it. -/
theorem C9_eager_once (mcp_config : List (String × Json))
    (h : (mcp_config.map Prod.fst).Nodup) :
    (MCPManager.ofConfig mcp_config).clients = initialize_clients mcp_config
  ∧ ((MCPManager.ofConfig mcp_config).clients.map Prod.fst).Nodup
  ∧ (∀ n cfg, (n, cfg) ∈ mcp_config → config_enabled cfg = true →
      (n, MCPClient.ofConfig n cfg) ∈ (MCPManager.ofConfig mcp_config).clients) := by
  refine ⟨rfl, h.sublist (initialize_clients_names_sublist mcp_config), ?_⟩
  intro n cfg hm he
  exact List.mem_filterMap.mpr ⟨(n, cfg), hm, by simp [he]⟩

/-- Witness for C9 at the one-server configuration: its single enabled server
is present in the constructed map. -/
theorem C9_eager_once_witness :
    ("demo", MCPClient.ofConfig "demo"
      (.obj [ ("url", .str "http://localhost:3000")
            , ("enabled", .bool true) ])) ∈
      (MCPManager.ofConfig demoConfig).clients :=
  (C9_eager_once demoConfig (by simp [demoConfig])).2.2 "demo"
    (.obj [ ("url", .str "http://localhost:3000")
          , ("enabled", .bool true) ])
    (by simp [demoConfig]) rfl

/-- C10: after construction the client names are exactly the configured names
with a truthy enabled flag, every stored client is enabled, and no public
manager operation changes the clients map. -/
theorem C10_clients_invariant (mcp_config : List (String × Json))
    (net : HttpRequest → HttpOutcome) (op : ManagerOp) :
    ((MCPManager.ofConfig mcp_config).clients.map Prod.fst =
      (mcp_config.filter (fun p => config_enabled p.2)).map Prod.fst)
  ∧ (∀ n cl, (n, cl) ∈ (MCPManager.ofConfig mcp_config).clients →
      cl.enabled = true)
  ∧ (((MCPManager.ofConfig mcp_config).run_op net op).2.2.clients =
      (MCPManager.ofConfig mcp_config).clients) := by
  refine ⟨initialize_clients_names mcp_config, ?_, ?_⟩
  · intro n cl hm
    obtain ⟨⟨n0, cfg⟩, hmem, hf⟩ := List.mem_filterMap.mp hm
    by_cases hc : config_enabled cfg
    · rw [if_pos hc] at hf
      obtain ⟨h1, h2⟩ := Prod.mk.injEq .. ▸ Option.some.inj hf
      rw [← h2]
      exact hc
    · rw [if_neg hc] at hf
      exact absurd hf (by simp)
  · cases op <;> rfl

/-- Witness for C10: the stored demo client is enabled. -/
theorem C10_clients_invariant_witness : demoClient.enabled = true :=
  (C10_clients_invariant demoConfig netDown .get_all_tools).2.1 "demo"
    demoClient (by
      show ("demo", demoClient) ∈ [("demo", demoClient)]
      exact List.mem_singleton.mpr rfl)

/-- Helper: the fallback tool call of an enabled client always returns some
value. -/
theorem call_tool_fallback_isSome (c : MCPClient)
    (net : HttpRequest → HttpOutcome) (tool_name : String)
    (arguments : Option Json) (h : c.enabled = true) :
    (c.call_tool_fallback net tool_name arguments).1.isSome = true := by
  cases hn : net (call_tool_http_request c tool_name arguments false) with
  | exn e => simp [MCPClient.call_tool_fallback, h, hn]
  | resp r =>
    by_cases h200 : r.statusCode = 200
    · cases hb : r.bodyJson with
      | ok j => simp [MCPClient.call_tool_fallback, h, hn, h200, hb]
      | fail msg => simp [MCPClient.call_tool_fallback, h, hn, h200, hb]
    · simp [MCPClient.call_tool_fallback, h, hn, h200]

/-- Helper: the tool call of an enabled client always returns some value,
whatever the network does. -/
theorem call_tool_isSome (c : MCPClient) (net : HttpRequest → HttpOutcome)
    (tool_name : String) (arguments : Option Json) (h : c.enabled = true) :
    (c.call_tool net tool_name arguments).1.isSome = true := by
  cases hn : net (call_tool_http_request c tool_name arguments true) with
  | exn e => simp [MCPClient.call_tool, h, hn]
  | resp r =>
    by_cases h200 : r.statusCode = 200
    · by_cases hct : containsSub r.contentType "text/event-stream" = true
      · simp [MCPClient.call_tool, h, hn, h200, hct]
      · cases hb : r.bodyJson with
        | ok j => simp [MCPClient.call_tool, h, hn, h200, hct, hb]
        | fail msg => simp [MCPClient.call_tool, h, hn, h200, hct, hb]
    · by_cases h406 : r.statusCode = 406
      · have hfb := call_tool_fallback_isSome c net tool_name arguments h
        rcases hp : c.call_tool_fallback net tool_name arguments with ⟨res, reqs⟩
        rw [hp] at hfb
        simp only [MCPClient.call_tool, h, hn, h200, h406, hp]
        simpa using hfb
      · simp [MCPClient.call_tool, h, hn, h200, h406]

/-- C1 counterexample: a transport failure at the list_tools boundary is not
returned as a structured error value: on the network where every request
raises, the enabled demo client returns the bare empty list, which carries no
error key, so the uniform structured-error representation does not hold at
the list_tools boundary. -/
theorem C1_counterexample :
    (demoClient.list_tools netDown).1 = some (.arr [])
  ∧ is_structured_error (demoClient.list_tools netDown).1 = false :=
  ⟨rfl, rfl⟩

/-- C1 (amended): call_tool never raises for an enabled client: it always
returns a value, and each transport exception, non-success non-406 status,
undecodable plain body, and provider-reported error document comes back as a
structured error value; list_tools likewise never raises, but it does not
share the uniform structured-error representation: a transport failure there
is returned as the empty list. -/
theorem C1_error_capture (c : MCPClient) (net : HttpRequest → HttpOutcome)
    (tool_name : String) (arguments : Option Json) (h : c.enabled = true) :
    ((c.call_tool net tool_name arguments).1.isSome = true)
  ∧ (∀ e, net (call_tool_http_request c tool_name arguments true) = .exn e →
      (c.call_tool net tool_name arguments).1 = some (connection_error c e))
  ∧ (∀ r, net (call_tool_http_request c tool_name arguments true) = .resp r →
      r.statusCode ≠ 200 → r.statusCode ≠ 406 →
      (c.call_tool net tool_name arguments).1 = some (http_status_error r))
  ∧ (∀ r msg,
      net (call_tool_http_request c tool_name arguments true) = .resp r →
      r.statusCode = 200 →
      containsSub r.contentType "text/event-stream" = false →
      r.bodyJson = .fail msg →
      (c.call_tool net tool_name arguments).1 = some (connection_error c msg))
  ∧ (∀ r j e,
      net (call_tool_http_request c tool_name arguments true) = .resp r →
      r.statusCode = 200 →
      containsSub r.contentType "text/event-stream" = false →
      r.bodyJson = .ok j → j.getKey "result" = none →
      j.getKey "error" = some e →
      (c.call_tool net tool_name arguments).1 = some (.obj [("error", e)]))
  ∧ (∀ e, is_structured_error (some (connection_error c e)) = true)
  ∧ (∀ r, is_structured_error (some (http_status_error r)) = true)
  ∧ (∀ e, net (list_tools_http_request c true) = .exn e →
      (c.list_tools net).1 = some (.arr [])) := by
  refine ⟨call_tool_isSome c net tool_name arguments h,
    ?_, ?_, ?_, ?_, fun e => rfl, fun r => rfl, ?_⟩
  · intro e hn
    simp [MCPClient.call_tool, h, hn]
  · intro r hn h200 h406
    simp [MCPClient.call_tool, h, hn, h200, h406]
  · intro r msg hn h200 hct hb
    simp [MCPClient.call_tool, h, hn, h200, hct, hb]
  · intro r j e hn h200 hct hb hres herr
    simp [MCPClient.call_tool, h, hn, h200, hct, hb, unwrap_envelope, hres, herr]
  · intro e hn
    simp [MCPClient.list_tools, h, hn]

/-- Witness for C1 at the enabled demo client over the network where every
request raises: the transport failure of call_tool is captured as the
structured connection error. -/
theorem C1_error_capture_witness :
    (demoClient.call_tool netDown "echo" none).1 =
      some (connection_error demoClient "ConnectError") :=
  (C1_error_capture demoClient netDown "echo" none rfl).2.1 "ConnectError" rfl

/-- Helper: the overall field of the health check, written out. -/
theorem health_overall_def (servers : List (String × Bool))
    (avail : String → AvailOutcome) :
    (health_check servers avail).overall =
      (if !(health_check servers avail).issues.isEmpty then "unhealthy"
       else if servers.isEmpty ||
         (health_check servers avail).servers.all
           (fun p => !is_healthy_status p.2)
       then "no_servers" else "healthy") := rfl

/-- Helper: with every configured server disabled, every per-server status is
the disabled one. -/
theorem server_status_all_disabled (avail : String → AvailOutcome)
    (servers : List (String × Bool)) (h : ∀ p ∈ servers, p.2 = false) :
    servers.map (server_status avail) =
      servers.map (fun p => (p.1, ServerHealth.disabled)) := by
  apply List.map_congr_left
  intro p hp
  simp [server_status, h p hp]

/-- Helper: an all-disabled status list records no issues. -/
theorem health_issues_disabled (l : List (String × Bool)) :
    health_issues (l.map (fun p => (p.1, ServerHealth.disabled))) = [] := by
  simp [health_issues, List.filterMap_map, Function.comp]

/-- C8 (spec-modelled): the health check classifies each server as disabled,
healthy, unavailable or error; the overall status is unhealthy when any
issue was recorded, no_servers when no server is configured or none is
healthy while no issue was recorded, and healthy otherwise; in particular
with zero enabled servers it reports no_servers with an empty issue list. -/
theorem C8_health_check_overall (servers : List (String × Bool))
    (avail : String → AvailOutcome) :
    ((health_check servers avail).issues ≠ [] →
      (health_check servers avail).overall = "unhealthy")
  ∧ ((health_check servers avail).issues = [] →
      (servers = [] ∨ ∀ p ∈ (health_check servers avail).servers,
        is_healthy_status p.2 = false) →
      (health_check servers avail).overall = "no_servers")
  ∧ ((health_check servers avail).issues = [] →
      (∃ p ∈ (health_check servers avail).servers,
        is_healthy_status p.2 = true) →
      (health_check servers avail).overall = "healthy")
  ∧ ((∀ p ∈ servers, p.2 = false) →
      (health_check servers avail).overall = "no_servers"
      ∧ (health_check servers avail).issues = []) := by
  refine ⟨?_, ?_, ?_, ?_⟩
  · intro hi
    have hne : ¬ (health_check servers avail).issues.isEmpty := by
      intro hemp
      exact hi (List.isEmpty_iff.mp hemp)
    rw [health_overall_def]
    simp [hne]
  · intro hi hs
    rw [health_overall_def]
    simp only [hi, List.isEmpty_nil, Bool.not_true, Bool.false_eq_true,
      if_false]
    rcases hs with hs | hs
    · subst hs
      simp
    · have hall : (health_check servers avail).servers.all
          (fun p => !is_healthy_status p.2) = true :=
        List.all_eq_true.mpr (fun p hp => by simp [hs p hp])
      simp [hall]
  · intro hi hs
    obtain ⟨p, hp, hhealthy⟩ := hs
    have hserv : servers.isEmpty = false := by
      rcases servers with _ | ⟨q, qs⟩
      · exact absurd hp (by simp [health_check])
      · rfl
    have hall : (health_check servers avail).servers.all
        (fun p => !is_healthy_status p.2) = false := by
      rcases hall : (health_check servers avail).servers.all
          (fun p => !is_healthy_status p.2) with _ | _
      · rfl
      · have := List.all_eq_true.mp hall p hp
        rw [hhealthy] at this
        exact absurd this (by simp)
    rw [health_overall_def]
    simp [hi, hserv, hall]
  · intro hdis
    have hmap := server_status_all_disabled avail servers hdis
    have hiss : (health_check servers avail).issues = [] := by
      show health_issues (servers.map (server_status avail)) = []
      rw [hmap]
      exact health_issues_disabled servers
    refine ⟨?_, hiss⟩
    have hall : (health_check servers avail).servers.all
        (fun p => !is_healthy_status p.2) = true := by
      show (servers.map (server_status avail)).all
        (fun p => !is_healthy_status p.2) = true
      rw [hmap]
      simp [List.all_eq_true, is_healthy_status]
    rw [health_overall_def]
    simp [hiss, hall]

/-- Witness for C8: over one configured, disabled server the overall status
is no_servers and the issue list is empty. -/
theorem C8_health_check_overall_witness :
    (health_check [("s1", false)] noProbe).overall = "no_servers"
  ∧ (health_check [("s1", false)] noProbe).issues = [] :=
  (C8_health_check_overall [("s1", false)] noProbe).2.2.2 (by simp)
